import Mathlib

/-!
Shallow embedding of the SGP30 sensor driver (package `sensor`,
file `sensor/sgp30sensor.go`) and proofs about its protocol codec.

Bytes and 16-bit words are modelled as `Nat` with explicit `% 256` /
`% 65536` truncation where the Go code converts between integer widths.
The swappable i2c connection (`i2CConnection`) is modelled as a record of
response functions; each operation additionally returns the trace of bus
operations it performed, so that "no write happened" is a provable fact.
-/

namespace SGP30

/-! Constants from the `const` block of sgp30sensor.go.  The Go constant
`GetBaseline`/`SetBaseline` would clash with the methods of the same name,
so they carry a `Cmd` suffix here. -/

def InitAirQuality : Nat := 0x2003

def MeasureAirQuality : Nat := 0x2008

def GetBaselineCmd : Nat := 0x2015

def SetBaselineCmd : Nat := 0x201e

def SetHumidity : Nat := 0x2061

def MeasureTest : Nat := 0x2032

def GetFeatureSetVersion : Nat := 0x202f

def MeasureRawSignals : Nat := 0x2050

def GetSerialID : Nat := 0x3682

def ExpectedFeatureSet : Nat := 0x0020

def Crc8Polynomial : Nat := 0x31

def Crc8Init : Nat := 0xFF

def Crc8XorOut : Nat := 0x00

def Crc8Check : Nat := 0xF7

/-! CRC-8 as computed by `generateCrc` via the sigurn/crc8 table with
`Poly = Crc8Polynomial`, `Init = Crc8Init`, `RefIn = false`,
`RefOut = false`, `XorOut = Crc8XorOut`: the MSB-first shift-register
update, one step per bit. -/

/-- One shift-register step of the non-reflected CRC-8: shift left and
conditionally xor the polynomial.  The state is a byte (`< 256`). -/
def crc8Step (c : Nat) : Nat :=
  if 128 ≤ c then Nat.xor (c * 2 % 256) Crc8Polynomial else c * 2 % 256

/-- Iterate `crc8Step` the given number of times (8 per input byte). -/
def crc8Bits : Nat → Nat → Nat
  | 0, c => c
  | n + 1, c => crc8Bits n (crc8Step c)

/-- Absorb one input byte into the CRC state: xor it in, then run 8 bit
steps. -/
def crc8Update (crc b : Nat) : Nat :=
  crc8Bits 8 (Nat.xor crc b % 256)

/-- The checksum of sgp30sensor.go (`generateCrc`): fold the bytes into the
state starting from `Crc8Init`, apply `Crc8XorOut` at the end. -/
def generateCrc (data : List Nat) : Nat :=
  Nat.xor (data.foldl crc8Update Crc8Init) Crc8XorOut

/-- Big-endian 2-byte encoding of a 16-bit value, as produced by
`binary.BigEndian.PutUint16` into a fresh 2-byte buffer. -/
def u16be (w : Nat) : List Nat :=
  [w / 256 % 256, w % 256]

/-- The word framer `packWordCrc`: big-endian bytes of the word followed
by their checksum. -/
def packWordCrc (w : Nat) : List Nat :=
  u16be w ++ [generateCrc (u16be w)]

/-! The error values produced by the driver.  In Go these are `error`
values built with `fmt.Errorf`; each distinct message becomes a
constructor, with the interpolated data as payload. -/

/-- Errors returned by the driver (one constructor per distinct
`fmt.Errorf` site) plus `transport` for errors propagated from the i2c
connection and `outOfRange` for a Go index-out-of-range panic. -/
inductive GoErr where
  /-- "i2c not connected" -/
  | notConnected : GoErr
  /-- an error value returned by the i2c connection's Write/Read/Close -/
  | transport : String → GoErr
  /-- "crc mismatch %x, %x" carrying the received crc and the generated crc -/
  | crcMismatch : Nat → Nat → GoErr
  /-- "connection already closed" -/
  | alreadyClosed : GoErr
  /-- "sgp30 sensor not found" -/
  | sensorNotFound : GoErr
  /-- "failed to read serial: %s" wrapping the inner error -/
  | failedSerial : GoErr → GoErr
  /-- "failed to get feature set: %s" wrapping the inner error -/
  | failedFeatureSet : GoErr → GoErr
  /-- a Go runtime panic (index out of range) -/
  | outOfRange : GoErr
deriving DecidableEq

/-- One observable operation on the i2c connection. -/
inductive BusOp where
  | write : List Nat → BusOp
  | read : Nat → BusOp
  | close : BusOp
deriving DecidableEq

/-- A test double for the `i2CConnection` interface: `writeRes` gives the
error (if any) for a write of a buffer; `readRes` gives, for the most
recently written buffer and the requested length, either an error or the
bytes placed into the read buffer; `closeRes` gives Close's result. -/
structure Transport where
  writeRes : List Nat → Option String
  readRes : List Nat → Nat → Except String (List Nat)
  closeRes : Option String

/-- Fill a fixed-length read buffer from the bytes a transport provides:
the buffer starts zeroed (`make`), the provided bytes are truncated to
bytes and copied in, the remainder stays zero. -/
def fillBuffer (provided : List Nat) (len : Nat) : List Nat :=
  ((provided.map fun b => b % 256).take len) ++
    List.replicate (len - provided.length) 0

/-- The reply-decoding loop of `readWords`: starting at group index `i`
with `k` groups to go, check each 3-byte group's checksum and decode its
big-endian word; abort with `crcMismatch` at the first failing group. -/
def decodeWords (buf : List Nat) : Nat → Nat → Except GoErr (List Nat)
  | _, 0 => Except.ok []
  | i, k + 1 =>
    let w0 := buf.getD (3 * i) 0
    let w1 := buf.getD (3 * i + 1) 0
    let crc := buf.getD (3 * i + 2) 0
    let generatedCrc := generateCrc [w0, w1]
    if generatedCrc ≠ crc then Except.error (GoErr.crcMismatch crc generatedCrc)
    else
      match decodeWords buf (i + 1) k with
      | Except.error e => Except.error e
      | Except.ok rest => Except.ok ((w0 * 256 + w1) :: rest)

/-- The `readWords` method: fail if no connection, write the command
(aborting on a write error), and when a reply is expected read
`replySize * 3` bytes and decode them.  The first component is the trace
of bus operations performed. -/
def readWords (conn : Option Transport) (command : List Nat) (replySize : Nat) :
    List BusOp × Except GoErr (List Nat) :=
  match conn with
  | none => ([], Except.error GoErr.notConnected)
  | some t =>
    match t.writeRes command with
    | some msg => ([BusOp.write command], Except.error (GoErr.transport msg))
    | none =>
      if replySize = 0 then ([BusOp.write command], Except.ok [])
      else
        match t.readRes command (replySize * 3) with
        | Except.error msg =>
          ([BusOp.write command, BusOp.read (replySize * 3)],
            Except.error (GoErr.transport msg))
        | Except.ok bytes =>
          ([BusOp.write command, BusOp.read (replySize * 3)],
            decodeWords (fillBuffer bytes (replySize * 3)) 0 replySize)

/-- The `readWordsUint` method: encode the 16-bit command big-endian and
run `readWords`. -/
def readWordsUint (conn : Option Transport) (command : Nat) (replySize : Nat) :
    List BusOp × Except GoErr (List Nat) :=
  readWords conn (u16be command) replySize

/-- Bounds-checked list update at a (possibly negative) Go index: `none`
models the index-out-of-range panic. -/
def setByteAt (l : List Nat) (i : Int) (v : Nat) : Option (List Nat) :=
  if 0 ≤ i ∧ i < (l.length : Int) then some (l.set i.toNat v) else none

/-- One iteration (index `i`) of the loop in `combineWords`: fetch
`words[len-1-i]`, split it into big-endian bytes, and store them at
`combined[7-2*i]` and `combined[7-(2*i+1)]`. -/
def combineIter (words : List Nat) (combined : List Nat) (i : Nat) :
    Option (List Nat) :=
  let w := words.getD (words.length - 1 - i) 0
  match setByteAt combined (7 - 2 * (i : Int)) (w % 256) with
  | none => none
  | some c1 => setByteAt c1 (7 - (2 * (i : Int) + 1)) (w / 256 % 256)

/-- Iterations `0 .. n-1` of the `combineWords` loop, in order. -/
def combineLoop (words : List Nat) (combined : List Nat) : Nat → Option (List Nat)
  | 0 => some combined
  | n + 1 =>
    match combineLoop words combined n with
    | none => none
    | some c => combineIter words c n

/-- Big-endian decoding of a byte list (`binary.BigEndian.Uint64` on the is
8-byte buffer). -/
def uintBE (bytes : List Nat) : Nat :=
  bytes.foldl (fun acc b => acc * 256 + b) 0

/-- The `combineWords` method: run the loop over an 8-byte zero buffer and
decode the result big-endian; `none` models the index-out-of-range panic
the Go code hits when `words` has more than 4 elements. -/
def combineWords (words : List Nat) : Option Nat :=
  (combineLoop words (List.replicate 8 0) words.length).map uintBE

/-- The sensor state: the nullable `i2cConnection` field and the public
`SerialID` field (the crc table and config carry no state that the claims
touch). -/
structure SGP30Sensor where
  conn : Option Transport
  serialID : Nat

/-- The `Measure` method: read 2 words with the measure command; on any
error return `(0, 0, the error)`. -/
def Measure (s : SGP30Sensor) : List BusOp × (Nat × Nat × Option GoErr) :=
  match readWordsUint s.conn MeasureAirQuality 2 with
  | (tr, Except.error e) => (tr, (0, 0, some e))
  | (tr, Except.ok vals) => (tr, (vals.getD 0 0, vals.getD 1 0, none))

/-- The `GetBaseline` method: read 2 words with the get-baseline command;
on any error return `(0, 0, the error)`. -/
def GetBaseline (s : SGP30Sensor) : List BusOp × (Nat × Nat × Option GoErr) :=
  match readWordsUint s.conn GetBaselineCmd 2 with
  | (tr, Except.error e) => (tr, (0, 0, some e))
  | (tr, Except.ok vals) => (tr, (vals.getD 0 0, vals.getD 1 0, none))

/-- The `SetBaseline` method: build the command buffer (big-endian command
code, packed eCO2 group, packed TVOC group) and issue a write-only
(`replySize = 0`) `readWords` call. -/
def SetBaseline (s : SGP30Sensor) (eCO2 TVOC : Nat) : List BusOp × Option GoErr :=
  let buffer := u16be SetBaselineCmd ++ packWordCrc eCO2 ++ packWordCrc TVOC
  match readWords s.conn buffer 0 with
  | (tr, Except.error e) => (tr, some e)
  | (tr, Except.ok _) => (tr, none)

/-- The `Close` method: with no connection return "connection already
closed"; otherwise call the transport's Close, drop the handle, and return
whatever Close returned. -/
def Close (s : SGP30Sensor) : SGP30Sensor × List BusOp × Option GoErr :=
  match s.conn with
  | none => (s, [], some GoErr.alreadyClosed)
  | some t =>
    ({ s with conn := none }, [BusOp.close], t.closeRes.map GoErr.transport)

/-- The `getSerial` method: read 3 words with the serial-id command and
combine them into the 48-bit serial; wraps its error. -/
def getSerial (conn : Option Transport) : List BusOp × Except GoErr Nat :=
  match readWordsUint conn GetSerialID 3 with
  | (tr, Except.error e) => (tr, Except.error (GoErr.failedSerial e))
  | (tr, Except.ok vals) =>
    match combineWords vals with
    | some v => (tr, Except.ok v)
    | none => (tr, Except.error GoErr.outOfRange)

/-- The `getFeatureSet` method: read 1 word with the feature-set command;
wraps its error. -/
def getFeatureSet (conn : Option Transport) : List BusOp × Except GoErr Nat :=
  match readWordsUint conn GetFeatureSetVersion 1 with
  | (tr, Except.error e) => (tr, Except.error (GoErr.failedFeatureSet e))
  | (tr, Except.ok vals) => (tr, Except.ok (vals.getD 0 0))

/-- The `Init` method in the case where the connection is already started,
so `startI2CConnection` logs "i2cconnection already started" and returns
nil without touching the bus (the fresh-open path goes through `os.Stat`
and `i2c.Open`, outside this model): store the serial on success or zero
it on failure, then require the expected feature set, then issue the
write-only init-air-quality command. -/
def InitConnected (s : SGP30Sensor) : SGP30Sensor × List BusOp × Option GoErr :=
  let serRes := getSerial s.conn
  let s1 : SGP30Sensor :=
    match serRes.2 with
    | Except.ok v => { s with serialID := v }
    | Except.error _ => { s with serialID := 0 }
  let fsRes := getFeatureSet s1.conn
  match fsRes.2 with
  | Except.error _ => (s1, serRes.1 ++ fsRes.1, some GoErr.sensorNotFound)
  | Except.ok featureSet =>
    if featureSet ≠ ExpectedFeatureSet then
      (s1, serRes.1 ++ fsRes.1, some GoErr.sensorNotFound)
    else
      let initRes := readWordsUint s1.conn InitAirQuality 0
      match initRes.2 with
      | Except.error e => (s1, serRes.1 ++ fsRes.1 ++ initRes.1, some e)
      | Except.ok _ => (s1, serRes.1 ++ fsRes.1 ++ initRes.1, none)

deriving instance DecidableEq for Except

/-! Theorems -/

set_option maxRecDepth 4000 in
/-- C6: the checksum uses polynomial 0x31, initial value 0xFF and
XOR-out 0x00, and matches the known check values: `0x58` for `[0x31]`,
`0xCB` for `[0x31,0x32,0x33,0x34]`, and the canonical CRC-8 check value
`0xF7 = Crc8Check` for the ASCII bytes of "123456789". -/
theorem generateCrc_check_values :
    Crc8Polynomial = 0x31 ∧ Crc8Init = 0xFF ∧ Crc8XorOut = 0x00 ∧
    generateCrc [0x31] = 0x58 ∧
    generateCrc [0x31, 0x32, 0x33, 0x34] = 0xCB ∧
    generateCrc [0x31, 0x32, 0x33, 0x34, 0x35, 0x36, 0x37, 0x38, 0x39] = 0xF7 ∧
    generateCrc [0x31, 0x32, 0x33, 0x34, 0x35, 0x36, 0x37, 0x38, 0x39] =
      Crc8Check :=
  ⟨rfl, rfl, rfl, by decide, by decide, by decide, by decide⟩

/-- C3: with no transport handle (`conn = none`), `readWords`, `Measure`,
`GetBaseline` and `SetBaseline` all fail with the not-connected error and
perform no bus operation at all (empty trace). -/
theorem ops_without_connection_fail (command : List Nat) (replySize : Nat)
    (sid eCO2 TVOC : Nat) :
    readWords none command replySize = ([], Except.error GoErr.notConnected) ∧
    Measure ⟨none, sid⟩ = ([], (0, 0, some GoErr.notConnected)) ∧
    GetBaseline ⟨none, sid⟩ = ([], (0, 0, some GoErr.notConnected)) ∧
    SetBaseline ⟨none, sid⟩ eCO2 TVOC = ([], some GoErr.notConnected) :=
  ⟨rfl, rfl, rfl, rfl⟩

/-- C9: whenever `Measure` or `GetBaseline` returns an error, the two
returned measurement values are both exactly 0. -/
theorem measure_getBaseline_zero_on_error (s : SGP30Sensor) (tr : List BusOp)
    (eCO2 TVOC : Nat) (err : GoErr) :
    (Measure s = (tr, (eCO2, TVOC, some err)) → eCO2 = 0 ∧ TVOC = 0) ∧
    (GetBaseline s = (tr, (eCO2, TVOC, some err)) → eCO2 = 0 ∧ TVOC = 0) := by
  constructor
  · intro h
    unfold Measure at h
    split at h
    · simp only [Prod.mk.injEq] at h
      exact ⟨h.2.1.symm, h.2.2.1.symm⟩
    · simp only [Prod.mk.injEq] at h
      exact Option.noConfusion h.2.2.2
  · intro h
    unfold GetBaseline at h
    split at h
    · simp only [Prod.mk.injEq] at h
      exact ⟨h.2.1.symm, h.2.2.1.symm⟩
    · simp only [Prod.mk.injEq] at h
      exact Option.noConfusion h.2.2.2

/-- Witness for C9: a concrete erroring call (no connection) returns
`(0, 0, notConnected)`. -/
theorem measure_getBaseline_zero_on_error_witness :
    Measure ⟨none, 0⟩ = ([], (0, 0, some GoErr.notConnected)) ∧
    ((0 : Nat) = 0 ∧ (0 : Nat) = 0) :=
  ⟨rfl,
    (measure_getBaseline_zero_on_error ⟨none, 0⟩ [] 0 0 GoErr.notConnected).1 rfl⟩

/-- A transport double whose operations all succeed (reads return zero
bytes). -/
def okTransport : Transport where
  writeRes := fun _ => none
  readRes := fun _ len => Except.ok (List.replicate len 0)
  closeRes := none

/-- C8: `Close` with no handle fails with the already-closed error and
changes nothing; `Close` with a handle performs exactly one close
operation, drops the handle, returns whatever the transport's close
returned, and every subsequent operation fails with not-connected. -/
theorem close_spec (s : SGP30Sensor) (t : Transport) (command : List Nat)
    (replySize eCO2 TVOC : Nat) :
    (s.conn = none → Close s = (s, [], some GoErr.alreadyClosed)) ∧
    (s.conn = some t →
      (Close s).2.1 = [BusOp.close] ∧
      (Close s).2.2 = t.closeRes.map GoErr.transport ∧
      (Close s).1.conn = none ∧
      readWords (Close s).1.conn command replySize =
        ([], Except.error GoErr.notConnected) ∧
      Measure (Close s).1 = ([], (0, 0, some GoErr.notConnected)) ∧
      GetBaseline (Close s).1 = ([], (0, 0, some GoErr.notConnected)) ∧
      SetBaseline (Close s).1 eCO2 TVOC = ([], some GoErr.notConnected)) := by
  constructor
  · intro h
    unfold Close
    rw [h]
  · intro h
    unfold Close
    rw [h]
    exact ⟨rfl, rfl, rfl, rfl, rfl, rfl, rfl⟩

/-- Witness for C8: `Close` on an unopened sensor fails with
already-closed; `Close` on an open sensor performs one close, succeeds,
and leaves subsequent `Measure` not-connected. -/
theorem close_spec_witness :
    Close ⟨none, 7⟩ = (⟨none, 7⟩, [], some GoErr.alreadyClosed) ∧
    (Close ⟨some okTransport, 7⟩).2.1 = [BusOp.close] ∧
    (Close ⟨some okTransport, 7⟩).2.2 = none ∧
    Measure (Close ⟨some okTransport, 7⟩).1 =
      ([], (0, 0, some GoErr.notConnected)) :=
  ⟨(close_spec ⟨none, 7⟩ okTransport [] 0 0 0).1 rfl,
    ((close_spec ⟨some okTransport, 7⟩ okTransport [] 0 0 0).2 rfl).1,
    ((close_spec ⟨some okTransport, 7⟩ okTransport [] 0 0 0).2 rfl).2.1,
    ((close_spec ⟨some okTransport, 7⟩ okTransport [] 0 0 0).2 rfl).2.2.2.2.1⟩

/-- Group `i` of a reply buffer passes its checksum: the crc generated
over the two data bytes equals the third byte. -/
abbrev groupOk (buf : List Nat) (i : Nat) : Prop :=
  generateCrc [buf.getD (3 * i) 0, buf.getD (3 * i + 1) 0] = buf.getD (3 * i + 2) 0

/-- The big-endian 16-bit word encoded by group `i` of a reply buffer. -/
def wordAt (buf : List Nat) (i : Nat) : Nat :=
  buf.getD (3 * i) 0 * 256 + buf.getD (3 * i + 1) 0

/-- When all `k` groups starting at group `i` pass their checksums, the
decode loop returns their big-endian words in order. -/
theorem decodeWords_ok (buf : List Nat) (k : Nat) :
    ∀ i, (∀ j, j < k → groupOk buf (i + j)) →
      decodeWords buf i k = Except.ok ((List.range' i k).map (wordAt buf ·)) := by
  induction k with
  | zero => intro i _; rfl
  | succ k ih =>
    intro i h
    have h0 : groupOk buf i := by simpa using h 0 (Nat.succ_pos k)
    have hrest : ∀ j, j < k → groupOk buf (i + 1 + j) := by
      intro j hj
      have := h (j + 1) (by omega)
      have e : i + (j + 1) = i + 1 + j := by omega
      rwa [e] at this
    have hcond : ¬ (generateCrc [buf.getD (3 * i) 0, buf.getD (3 * i + 1) 0] ≠
        buf.getD (3 * i + 2) 0) := not_not_intro h0
    simp only [decodeWords, List.range'_succ, List.map_cons]
    rw [if_neg hcond, ih (i + 1) hrest]
    rfl

/-- When the first `j` groups starting at group `i` pass but group `i + j`
fails, the decode loop aborts with the crc-mismatch error carrying that
group's received and generated checksums. -/
theorem decodeWords_mismatch (buf : List Nat) (k : Nat) :
    ∀ i j, j < k → (∀ l, l < j → groupOk buf (i + l)) → ¬ groupOk buf (i + j) →
      decodeWords buf i k =
        Except.error (GoErr.crcMismatch (buf.getD (3 * (i + j) + 2) 0)
          (generateCrc [buf.getD (3 * (i + j)) 0, buf.getD (3 * (i + j) + 1) 0])) := by
  induction k with
  | zero => intro i j hj; omega
  | succ k ih =>
    intro i j hj hok hbad
    cases j with
    | zero =>
      simp only [Nat.add_zero] at hbad ⊢
      have hcond : generateCrc [buf.getD (3 * i) 0, buf.getD (3 * i + 1) 0] ≠
          buf.getD (3 * i + 2) 0 := hbad
      simp only [decodeWords]
      rw [if_pos hcond]
    | succ j =>
      have h0 : groupOk buf i := by simpa using hok 0 (Nat.succ_pos j)
      have hrest : ∀ l, l < j → groupOk buf (i + 1 + l) := by
        intro l hl
        have := hok (l + 1) (by omega)
        have e : i + (l + 1) = i + 1 + l := by omega
        rwa [e] at this
      have hbad' : ¬ groupOk buf (i + 1 + j) := by
        have e : i + (j + 1) = i + 1 + j := by omega
        rwa [e] at hbad
      have hcond : ¬ (generateCrc [buf.getD (3 * i) 0, buf.getD (3 * i + 1) 0] ≠
          buf.getD (3 * i + 2) 0) := not_not_intro h0
      simp only [decodeWords]
      rw [if_neg hcond, ih (i + 1) j (by omega) hrest hbad']
      have e : i + 1 + j = i + (j + 1) := by omega
      rw [e]

/-- Mapping `% 256` over a list of bytes changes nothing. -/
theorem map_mod256_eq (l : List Nat) (h : ∀ b ∈ l, b < 256) :
    l.map (fun b => b % 256) = l := by
  induction l with
  | nil => rfl
  | cons a l ih =>
    simp only [List.map_cons, List.cons.injEq]
    exact ⟨Nat.mod_eq_of_lt (h a (List.mem_cons_self a l)),
      ih fun b hb => h b (List.mem_cons_of_mem a hb)⟩

/-- Filling a read buffer of exactly the provided byte list's length
returns that list unchanged. -/
theorem fillBuffer_eq (buf : List Nat) (len : Nat) (hlen : buf.length = len)
    (hbytes : ∀ b ∈ buf, b < 256) : fillBuffer buf len = buf := by
  subst hlen
  unfold fillBuffer
  rw [map_mod256_eq buf hbytes]
  simp

/-- C1: for every reply buffer of `n ≥ 1` groups: `readWords` hands the
bytes a successful read provides to the decode loop unchanged; if every
group's checksum matches, decoding returns exactly the `n` big-endian
words in input order (each a 16-bit value); and if some group fails its
checksum, decoding aborts at the first such group with the crc-mismatch
error carrying that group's received and generated checksums, returning
no word list. -/
theorem decodeWords_spec (buf : List Nat) (n : Nat) (hlen : buf.length = n * 3)
    (hbytes : ∀ b ∈ buf, b < 256) (hn : 1 ≤ n) :
    (∀ t command, t.writeRes command = none →
      t.readRes command (n * 3) = Except.ok buf →
      readWords (some t) command n =
        ([BusOp.write command, BusOp.read (n * 3)], decodeWords buf 0 n)) ∧
    ((∀ i, i < n → groupOk buf i) →
      decodeWords buf 0 n = Except.ok ((List.range n).map (wordAt buf ·)) ∧
      ((List.range n).map (wordAt buf ·)).length = n ∧
      ∀ i, i < n → wordAt buf i < 65536) ∧
    (∀ j, j < n → (∀ i, i < j → groupOk buf i) → ¬ groupOk buf j →
      decodeWords buf 0 n =
        Except.error (GoErr.crcMismatch (buf.getD (3 * j + 2) 0)
          (generateCrc [buf.getD (3 * j) 0, buf.getD (3 * j + 1) 0]))) := by
  refine ⟨?_, ?_, ?_⟩
  · intro t command hw hr
    unfold readWords
    simp only [hw]
    rw [if_neg (show ¬ n = 0 by omega)]
    simp only [hr]
    rw [fillBuffer_eq buf (n * 3) hlen hbytes]
  · intro h
    refine ⟨?_, by simp, ?_⟩
    · rw [List.range_eq_range']
      exact decodeWords_ok buf n 0 fun j hj => by simpa using h j hj
    · intro i hi
      have hg : ∀ m, buf.getD m 0 < 256 := by
        intro m
        rcases Nat.lt_or_ge m buf.length with hlt | hge
        · rw [List.getD_eq_getElem buf 0 hlt]
          exact hbytes _ (List.getElem_mem hlt)
        · rw [List.getD_eq_default buf 0 hge]; omega
      have h0 := hg (3 * i)
      have h1 := hg (3 * i + 1)
      unfold wordAt
      omega
  · intro j hj hok hbad
    have := decodeWords_mismatch buf n 0 j hj
      (fun l hl => by simpa using hok l hl) (by simpa using hbad)
    simpa using this

/-- Witness for C1: the baseline reply `[01 02 17 03 04 68]` decodes to
`[0x0102, 0x0304]`, and with its second checksum corrupted to `00` the
decode aborts with crc-mismatch `(00, 68)`. -/
theorem decodeWords_spec_witness :
    decodeWords [0x01, 0x02, 0x17, 0x03, 0x04, 0x68] 0 2 =
      Except.ok [0x0102, 0x0304] ∧
    decodeWords [0x01, 0x02, 0x17, 0x03, 0x04, 0x00] 0 2 =
      Except.error (GoErr.crcMismatch 0x00 0x68) := by
  constructor
  · have h := (decodeWords_spec [0x01, 0x02, 0x17, 0x03, 0x04, 0x68] 2
      (by decide) (by decide) (by decide)).2.1 (by decide)
    rw [h.1]; rfl
  · have h := (decodeWords_spec [0x01, 0x02, 0x17, 0x03, 0x04, 0x00] 2
      (by decide) (by decide) (by decide)).2.2 1 (by decide) (by decide) (by decide)
    rw [h]; rfl

/-- C5: packing any 16-bit word and decoding the 3-byte result as a
1-word reply succeeds and yields exactly that word. -/
theorem packWordCrc_roundtrip (w : Nat) (hw : w < 65536) :
    decodeWords (packWordCrc w) 0 1 = Except.ok [w] := by
  have hok : ∀ j, j < 1 → groupOk (packWordCrc w) (0 + j) := by
    intro j hj
    interval_cases j
    simp [groupOk, packWordCrc, u16be]
  rw [decodeWords_ok (packWordCrc w) 1 0 hok]
  simp only [List.range'_succ, List.range', List.map_cons, List.map_nil]
  unfold wordAt packWordCrc u16be
  simp only [List.getD]
  norm_num
  omega

/-- Witness for C5: the round trip at `w = 0x1234`. -/
theorem packWordCrc_roundtrip_witness :
    decodeWords (packWordCrc 0x1234) 0 1 = Except.ok [0x1234] :=
  packWordCrc_roundtrip 0x1234 (by decide)

/-- A write-only (`replySize = 0`) `readWords` call performs exactly one
write of the command buffer, whether or not the write succeeds. -/
theorem readWords_writeOnly_trace (t : Transport) (command : List Nat) :
    (readWords (some t) command 0).1 = [BusOp.write command] := by
  unfold readWords
  cases h : t.writeRes command <;> simp [h]

/-- The trace of `SetBaseline` is the trace of its underlying write-only
`readWords` call on the assembled buffer. -/
theorem setBaseline_trace (s : SGP30Sensor) (eCO2 TVOC : Nat) :
    (SetBaseline s eCO2 TVOC).1 =
      (readWords s.conn
        (u16be SetBaselineCmd ++ packWordCrc eCO2 ++ packWordCrc TVOC) 0).1 := by
  unfold SetBaseline
  rcases h : readWords s.conn
    (u16be SetBaselineCmd ++ packWordCrc eCO2 ++ packWordCrc TVOC) 0 with ⟨tr, res⟩
  cases res <;> simp only [h]

/-- C4: on a connected sensor, `SetBaseline` writes exactly one buffer,
namely the big-endian command code `0x201E` (bytes `[0x20, 0x1E]`)
followed by the packed 3-byte group for eCO2 and then the packed 3-byte
group for TVOC; no read is attempted; and at `(0x0102, 0x0304)` that
buffer is exactly `[0x20,0x1E,0x01,0x02,0x17,0x03,0x04,0x68]`. -/
theorem setBaseline_write_buffer (s : SGP30Sensor) (t : Transport)
    (eCO2 TVOC : Nat) (hconn : s.conn = some t) :
    (SetBaseline s eCO2 TVOC).1 =
      [BusOp.write (u16be SetBaselineCmd ++ packWordCrc eCO2 ++ packWordCrc TVOC)] ∧
    u16be SetBaselineCmd = [0x20, 0x1E] ∧
    (∀ len, BusOp.read len ∉ (SetBaseline s eCO2 TVOC).1) ∧
    (SetBaseline s 0x0102 0x0304).1 =
      [BusOp.write [0x20, 0x1E, 0x01, 0x02, 0x17, 0x03, 0x04, 0x68]] := by
  have h1 : (SetBaseline s eCO2 TVOC).1 =
      [BusOp.write (u16be SetBaselineCmd ++ packWordCrc eCO2 ++ packWordCrc TVOC)] := by
    rw [setBaseline_trace, hconn, readWords_writeOnly_trace]
  have h2 : (SetBaseline s 0x0102 0x0304).1 =
      [BusOp.write [0x20, 0x1E, 0x01, 0x02, 0x17, 0x03, 0x04, 0x68]] := by
    rw [setBaseline_trace, hconn, readWords_writeOnly_trace]
    rfl
  refine ⟨h1, rfl, ?_, h2⟩
  intro len
  rw [h1]
  simp

/-- Witness for C4: a concrete connected sensor with
`SetBaseline(0x0102, 0x0304)`. -/
theorem setBaseline_write_buffer_witness :
    (SetBaseline ⟨some okTransport, 0⟩ 0x0102 0x0304).1 =
      [BusOp.write [0x20, 0x1E, 0x01, 0x02, 0x17, 0x03, 0x04, 0x68]] :=
  (setBaseline_write_buffer ⟨some okTransport, 0⟩ okTransport 0x0102 0x0304
    rfl).2.2.2

/-- C7: for 1 to 4 words, each a 16-bit value, `combineWords` returns the
big-endian concatenation, most-significant word first: the sum of
`words[i] * 2^(16*(len-1-i))`; in particular
`combineWords [0x1234, 0x5678] = 0x12345678` and
`combineWords [0x4321, 0x8765, 0xDCBE] = 0x43218765DCBE`. -/
theorem combineWords_big_endian (ws : List Nat) (h1 : 1 ≤ ws.length)
    (h4 : ws.length ≤ 4) (hw : ∀ w ∈ ws, w < 65536) :
    combineWords ws =
      some (∑ i ∈ Finset.range ws.length,
        ws.getD i 0 * 2 ^ (16 * (ws.length - 1 - i))) ∧
    combineWords [0x1234, 0x5678] = some 0x12345678 ∧
    combineWords [0x4321, 0x8765, 0xDCBE] = some 0x43218765DCBE := by
  refine ⟨?_, by decide, by decide⟩
  rcases ws with _ | ⟨a, _ | ⟨b, _ | ⟨c, _ | ⟨d, rest⟩⟩⟩⟩
  · simp at h1
  · have ha := hw a (by simp)
    simp [combineWords, combineLoop, combineIter, setByteAt, uintBE,
      Finset.sum_range_succ, List.set]
    omega
  · have ha := hw a (by simp)
    have hb := hw b (by simp)
    simp [combineWords, combineLoop, combineIter, setByteAt, uintBE,
      Finset.sum_range_succ, List.set]
    omega
  · have ha := hw a (by simp)
    have hb := hw b (by simp)
    have hc := hw c (by simp)
    simp [combineWords, combineLoop, combineIter, setByteAt, uintBE,
      Finset.sum_range_succ, List.set]
    omega
  · rcases rest with _ | ⟨e, rest⟩
    · have ha := hw a (by simp)
      have hb := hw b (by simp)
      have hc := hw c (by simp)
      have hd := hw d (by simp)
      simp [combineWords, combineLoop, combineIter, setByteAt, uintBE,
        Finset.sum_range_succ, List.set]
      omega
    · simp at h4

/-- Witness for C7: the serial-id example `[0x1234, 0x5678]`. -/
theorem combineWords_big_endian_witness :
    combineWords [0x1234, 0x5678] = some 0x12345678 :=
  (combineWords_big_endian [0x1234, 0x5678] (by decide) (by decide)
    (by decide)).2.1

/-- Iteration 4 of the `combineWords` loop always hits the out-of-range
index `7 - 2*4 = -1`. -/
theorem combineIter_four (words c : List Nat) : combineIter words c 4 = none := by
  norm_num [combineIter, setByteAt]

/-- One unfolding step of `combineLoop`. -/
theorem combineLoop_succ (words c : List Nat) (n : Nat) :
    combineLoop words c (n + 1) =
      match combineLoop words c n with
      | none => none
      | some r => combineIter words r n := rfl

/-- Once the `combineWords` loop has failed it stays failed. -/
theorem combineLoop_none_mono (words c : List Nat) (n m : Nat)
    (h : combineLoop words c n = none) : combineLoop words c (n + m) = none := by
  induction m with
  | zero => exact h
  | succ m ih =>
    show combineLoop words c ((n + m) + 1) = none
    simp only [combineLoop, ih]

/-- Five loop iterations always fail (iteration 4 is out of range). -/
theorem combineLoop_five (words z : List Nat) : combineLoop words z 5 = none := by
  show combineLoop words z (4 + 1) = none
  rw [combineLoop_succ]
  cases h : combineLoop words z 4
  · rfl
  · exact combineIter_four words _

/-- C10: for at most 4 words every index the `combineWords` loop computes
is in bounds and the function totally produces a value; for 5 or more
words the bounds guarantee fails and the modelled computation is the
out-of-range `none`. -/
theorem combineWords_index_bounds (ws : List Nat) :
    (ws.length ≤ 4 → (combineWords ws).isSome = true) ∧
    (5 ≤ ws.length → combineWords ws = none) := by
  constructor
  · intro h4
    rcases ws with _ | ⟨a, _ | ⟨b, _ | ⟨c, _ | ⟨d, rest⟩⟩⟩⟩
    · simp [combineWords, combineLoop]
    · simp [combineWords, combineLoop, combineIter, setByteAt, List.set]
    · simp [combineWords, combineLoop, combineIter, setByteAt, List.set]
    · simp [combineWords, combineLoop, combineIter, setByteAt, List.set]
    · rcases rest with _ | ⟨e, rest⟩
      · simp [combineWords, combineLoop, combineIter, setByteAt, List.set]
      · simp at h4
  · intro h5
    unfold combineWords
    have hnone : combineLoop ws (List.replicate 8 0) ws.length = none := by
      have e : ws.length = 5 + (ws.length - 5) := by omega
      rw [e]
      exact combineLoop_none_mono ws (List.replicate 8 0) 5 (ws.length - 5)
        (combineLoop_five ws (List.replicate 8 0))
    rw [hnone]
    rfl

/-- Witness for C10: a 3-word list succeeds, a 5-word list fails. -/
theorem combineWords_index_bounds_witness :
    (combineWords [1, 2, 3]).isSome = true ∧
    combineWords [1, 2, 3, 4, 5] = none :=
  ⟨(combineWords_index_bounds [1, 2, 3]).1 (by decide),
    (combineWords_index_bounds [1, 2, 3, 4, 5]).2 (by decide)⟩

/-- A transport double for the initialization scenario of the spec: a
valid identify (serial-id) reply decoding to serial `0x010203040506`, and
a feature-version reply whose word is `0xF707` (with a correct checksum
`0xA0`), not the expected `0x0020`. -/
def featureMismatchTransport : Transport where
  writeRes := fun _ => none
  readRes := fun cmd len =>
    if cmd = u16be GetSerialID then
      Except.ok [0x01, 0x02, 0x17, 0x03, 0x04, 0x68, 0x05, 0x06, 0x50]
    else if cmd = u16be GetFeatureSetVersion then
      Except.ok [0xF7, 0x07, 0xA0]
    else
      Except.ok (List.replicate len 0)
  closeRes := none

/-- C2 counterexample: with a valid identify reply and feature-version
word `0xF707`, `Init` does fail with the sensor-not-found error, but the
stored serial id is the newly decoded `0x010203040506`, not `0` as the
claim states — the identity field is set to a new value on this failing
call. -/
theorem initConnected_feature_mismatch_counterexample :
    (getSerial (some featureMismatchTransport)).2 = Except.ok 0x010203040506 ∧
    (getFeatureSet (some featureMismatchTransport)).2 = Except.ok 0xF707 ∧
    (InitConnected ⟨some featureMismatchTransport, 0⟩).2.2 =
      some GoErr.sensorNotFound ∧
    (InitConnected ⟨some featureMismatchTransport, 0⟩).1.serialID =
      0x010203040506 ∧
    (InitConnected ⟨some featureMismatchTransport, 0⟩).1.serialID ≠ 0 := by
  refine ⟨rfl, rfl, rfl, rfl, ?_⟩
  intro h
  rw [show (InitConnected ⟨some featureMismatchTransport, 0⟩).1.serialID =
    0x010203040506 from rfl] at h
  exact absurd h (by decide)

/-- C2 (amended): if the identify reply decodes to serial `v` and the
feature-version reply decodes to a word other than the expected `0x0020`,
`Init` fails with the sensor-not-found error and the stored serial id is
`v`, the serial decoded from the identify reply (it is zeroed only when
the identify read itself fails). -/
theorem initConnected_feature_mismatch_amended (s : SGP30Sensor) (v fs : Nat)
    (hser : (getSerial s.conn).2 = Except.ok v)
    (hfs : (getFeatureSet s.conn).2 = Except.ok fs)
    (hne : fs ≠ ExpectedFeatureSet) :
    (InitConnected s).1.serialID = v ∧
    (InitConnected s).2.2 = some GoErr.sensorNotFound := by
  have hc : ({ s with serialID := v } : SGP30Sensor).conn = s.conn := rfl
  unfold InitConnected
  simp only [hser, hc, hfs]
  rw [if_pos hne]
  exact ⟨rfl, rfl⟩

/-- Witness for the amended C2: the concrete feature-mismatch transport. -/
theorem initConnected_feature_mismatch_amended_witness :
    (getSerial (some featureMismatchTransport)).2 = Except.ok 0x010203040506 ∧
    (getFeatureSet (some featureMismatchTransport)).2 = Except.ok 0xF707 ∧
    (InitConnected ⟨some featureMismatchTransport, 0⟩).1.serialID =
      0x010203040506 ∧
    (InitConnected ⟨some featureMismatchTransport, 0⟩).2.2 =
      some GoErr.sensorNotFound :=
  ⟨rfl, rfl,
    (initConnected_feature_mismatch_amended ⟨some featureMismatchTransport, 0⟩
      0x010203040506 0xF707 rfl rfl (by decide)).1,
    (initConnected_feature_mismatch_amended ⟨some featureMismatchTransport, 0⟩
      0x010203040506 0xF707 rfl rfl (by decide)).2⟩

end SGP30
